import Mathlib

/-!
Verification of the client-side session and request-pipeline subsystem of the
react-spa-for-xano repository.  The definitions below are a shallow embedding
of `src/lib/cookies.js`, the axios HTTP client interceptors, the query-client
retry policy, `src/services/authService.js`, `src/hooks/useAuth.js` and the
route-guard components.  Machine state (cookie jar, window location, query
cache, emitted navigation signals and toasts) is passed explicitly.
-/

namespace Spa

/-- Cookie attributes assembled by `setCookie` in `src/lib/cookies.js`.
`encodeURIComponent` is modelled as the identity, since every cookie name and
value the application stores is URI-safe.  An attribute is `none` when the
source skips it because the merged value is falsy. -/
structure CookieWrite where
  name : String
  value : String
  maxAge : Option Int
  path : Option String
  secure : Bool
  sameSite : Option String
deriving Repr, DecidableEq

/-- Effective cookie configuration after the object spread of `COOKIE_CONFIG`
with the call-site options in `setCookie`. -/
structure CookieConfig where
  secure : Bool
  sameSite : String
  path : String
  maxAge : Int
deriving Repr, DecidableEq

/-- COOKIE_CONFIG from `src/lib/cookies.js`: Secure only in production,
SameSite strict, Path slash, Max-Age of seven days in seconds. -/
def COOKIE_CONFIG (isProduction : Bool) : CookieConfig :=
  { secure := isProduction
    sameSite := "strict"
    path := "/"
    maxAge := 7 * 24 * 60 * 60 }

/-- Call-site options for `setCookie`; `none` means the key is absent from the
options object, so the spread keeps the `COOKIE_CONFIG` default. -/
structure CookieOptions where
  maxAge : Option Int := none
  path : Option String := none
  secure : Option Bool := none
  sameSite : Option String := none
deriving Repr, DecidableEq

/-- The object spread merging `COOKIE_CONFIG` with the call-site options. -/
def mergeConfig (isProduction : Bool) (options : CookieOptions) : CookieConfig :=
  { secure := options.secure.getD (COOKIE_CONFIG isProduction).secure
    sameSite := options.sameSite.getD (COOKIE_CONFIG isProduction).sameSite
    path := options.path.getD (COOKIE_CONFIG isProduction).path
    maxAge := options.maxAge.getD (COOKIE_CONFIG isProduction).maxAge }

/-- setCookie from `src/lib/cookies.js`: builds the cookie string from the
merged configuration; each attribute is appended only when the merged value is
truthy (nonzero for `maxAge`, nonempty for the string attributes, true for
`secure`). -/
def setCookie (isProduction : Bool) (name value : String) (options : CookieOptions) :
    CookieWrite :=
  let config := mergeConfig isProduction options
  { name := name
    value := value
    maxAge := if config.maxAge ≠ 0 then some config.maxAge else none
    path := if config.path ≠ "" then some config.path else none
    secure := config.secure
    sameSite := if config.sameSite ≠ "" then some config.sameSite else none }

/-- deleteCookie from `src/lib/cookies.js`: a `setCookie` of the empty value
with `maxAge` minus one and path slash; the remaining flags come from
`COOKIE_CONFIG` exactly as for a write. -/
def deleteCookie (isProduction : Bool) (name : String) : CookieWrite :=
  setCookie isProduction name "" { maxAge := some (-1), path := some "/" }

/-- The browser cookie jar: one stored value per cookie name. -/
abbrev CookieJar := List (String × String)

/-- Browser semantics of one `document.cookie` assignment: a write whose
Max-Age is zero or negative removes the cookie, any other write stores the
value under the name (replacing a previous value). -/
def applyWrite (jar : CookieJar) (w : CookieWrite) : CookieJar :=
  match w.maxAge with
  | some m =>
    if m ≤ 0 then jar.filter (fun c => c.1 != w.name)
    else (w.name, w.value) :: jar.filter (fun c => c.1 != w.name)
  | none => (w.name, w.value) :: jar.filter (fun c => c.1 != w.name)

/-- getCookie from `src/lib/cookies.js`: looks the name up in the jar,
returning `none` for an absent cookie. -/
def getCookie (jar : CookieJar) (name : String) : Option String :=
  (jar.find? (fun c => c.1 == name)).map (fun c => c.2)

theorem applyWrite_delete_eq (isProduction : Bool) (jar : CookieJar) (name : String) :
    applyWrite jar (deleteCookie isProduction name) = jar.filter (fun c => c.1 != name) := by
  simp [applyWrite, deleteCookie, setCookie, mergeConfig, COOKIE_CONFIG]

theorem getCookie_applyWrite_delete (isProduction : Bool) (jar : CookieJar) (name : String) :
    getCookie (applyWrite jar (deleteCookie isProduction name)) name = none := by
  rw [applyWrite_delete_eq, getCookie, List.find?_eq_none.mpr]
  · rfl
  · intro c hc
    have hmem := List.of_mem_filter hc
    simpa using hmem

theorem applyWrite_set_eq (isProduction : Bool) (jar : CookieJar) (name value : String) :
    applyWrite jar (setCookie isProduction name value {}) =
      (name, value) :: jar.filter (fun c => c.1 != name) := by
  simp [applyWrite, setCookie, mergeConfig, COOKIE_CONFIG]

theorem getCookie_applyWrite_set (isProduction : Bool) (jar : CookieJar) (name value : String) :
    getCookie (applyWrite jar (setCookie isProduction name value {})) name = some value := by
  rw [applyWrite_set_eq, getCookie]
  simp

/-- Plain JavaScript Error value: only the message is observable. -/
structure JsError where
  message : String
deriving Repr, DecidableEq

/-- Structured error object built by the response interceptor error branch of
the HTTP client: message, optional status and status text, server payload
(abstracted to its observable message string), request URL and method. -/
structure StructuredError where
  message : String
  status : Option Nat
  statusText : Option String
  data : Option String
  url : Option String
  method : Option String
deriving Repr, DecidableEq

/-- Server response attached to an axios transport error, when one arrived. -/
structure ResponseInfo where
  status : Nat
  statusText : String
  data : Option String
deriving Repr, DecidableEq

/-- Request configuration attached to an axios error. -/
structure RequestInfo where
  url : String
  method : String
deriving Repr, DecidableEq

/-- Raw axios error entering an interceptor error branch: the transport
message plus the optional response and the optional request configuration. -/
structure RawError where
  message : String
  response : Option ResponseInfo
  config : Option RequestInfo
deriving Repr, DecidableEq

/-- Observable browser-side effects of the HTTP interceptors: the cookie jar,
the current window location pathname, the list of targets assigned to the
window location (the forced-navigation signals, in order) and the toast
messages shown. -/
structure BrowserState where
  jar : CookieJar
  pathname : String
  hrefAssigns : List String
  toasts : List String
deriving Repr, DecidableEq

/-- The structured error object literal built at the end of the response
interceptor error branch. -/
def structuredErrorOf (error : RawError) : StructuredError :=
  { message := error.message
    status := error.response.map (fun r => r.status)
    statusText := error.response.map (fun r => r.statusText)
    data := error.response.bind (fun r => r.data)
    url := error.config.map (fun c => c.url)
    method := error.config.map (fun c => c.method) }

/-- Error branch of the response interceptor of the HTTP client: classify the
status, run the side effects (on 401 delete the auth cookie, toast, and assign
the login page to the window location unless already there; on other statuses
only toast), and reject with the structured error object.  Assigning the
window location is modelled as recording the navigation signal and moving the
location to the target, i.e. a navigation is assumed to take effect before
the next response is processed. -/
def responseInterceptorError (isProduction : Bool) (st : BrowserState) (error : RawError) :
    BrowserState × StructuredError :=
  let st1 : BrowserState :=
    match error.response with
    | some r =>
      if r.status = 401 then
        let stCleared : BrowserState :=
          { st with
            jar := applyWrite st.jar (deleteCookie isProduction "authToken")
            toasts := st.toasts ++ ["Session expired. Please log in again."] }
        if stCleared.pathname ≠ "/login" then
          { stCleared with
            pathname := "/login"
            hrefAssigns := stCleared.hrefAssigns ++ ["/login"] }
        else stCleared
      else if r.status = 403 then
        { st with toasts := st.toasts ++ ["Access denied. You do not have permission."] }
      else if r.status = 404 then
        { st with toasts := st.toasts ++ ["Resource not found."] }
      else if r.status = 429 then
        { st with toasts := st.toasts ++ ["Too many requests. Please wait and try again."] }
      else if 500 ≤ r.status then
        { st with toasts := st.toasts ++ ["Server error. Please try again later."] }
      else if 400 ≤ r.status then
        { st with toasts := st.toasts ++ [r.data.getD "Request failed. Please check your input."] }
      else st
    | none => st
  (st1, structuredErrorOf error)

/-- A value with which the HTTP layer rejects: either the raw transport error
forwarded unchanged, or the structured error object. -/
inductive PipelineReject where
  | raw (error : RawError)
  | structured (error : StructuredError)
deriving Repr, DecidableEq

/-- True exactly when the rejection value is a structured error object. -/
def PipelineReject.isStructured : PipelineReject → Bool
  | .raw _ => false
  | .structured _ => true

/-- Error branch of the request interceptor of the HTTP client: it logs the
error and re-rejects it unchanged.  In the axios promise chain this
rejection does not leave the client: it is delivered to the rejection
handler of the downstream response interceptor. -/
def requestInterceptorError (error : RawError) : RawError :=
  error

/-- Stage at which a failure enters the interceptor chain of the client. -/
inductive FailureStage where
  | requestStage
  | responseStage
deriving Repr, DecidableEq

/-- The value with which the HTTP client ultimately rejects for a failure
entering at either stage: axios composes the interceptors as one promise
chain, so a request-stage rejection (re-rejected raw by the request
interceptor error branch) reaches the response interceptor rejection handler
downstream, and a response failure reaches that handler directly; the
handler runs its side effects and rejects with the structured error object,
which is therefore the only failure value leaving the client. -/
def httpClientReject (isProduction : Bool) (st : BrowserState) (stage : FailureStage)
    (error : RawError) : BrowserState × PipelineReject :=
  match stage with
  | .requestStage =>
    let out := responseInterceptorError isProduction st (requestInterceptorError error)
    (out.1, .structured out.2)
  | .responseStage =>
    let out := responseInterceptorError isProduction st error
    (out.1, .structured out.2)

/-- Browser state after the response interceptor has processed a list of
failed responses one at a time (a single-threaded event loop). -/
def processErrors (isProduction : Bool) (st : BrowserState) (errors : List RawError) :
    BrowserState :=
  errors.foldl (fun s e => (responseInterceptorError isProduction s e).1) st

/-- Default query retry predicate of the query client: never retry a 4xx
failure, otherwise retry while fewer than 3 failures have occurred.  A
missing status (network failure) falls through the 4xx test because the
comparison with an undefined status is falsy in the source. -/
def queriesRetry (failureCount : Nat) (error : StructuredError) : Bool :=
  match error.status with
  | some s => if 400 ≤ s ∧ s < 500 then false else decide (failureCount < 3)
  | none => decide (failureCount < 3)

/-- Default mutation retry predicate of the query client: never retry a 4xx
failure, otherwise retry while fewer than 2 failures have occurred. -/
def mutationsRetry (failureCount : Nat) (error : StructuredError) : Bool :=
  match error.status with
  | some s => if 400 ≤ s ∧ s < 500 then false else decide (failureCount < 2)
  | none => decide (failureCount < 2)

/-- Retry predicate of the useUser query in `src/hooks/useAuth.js`: never
retry a 401, otherwise retry while fewer than 2 failures have occurred. -/
def useUserRetry (failureCount : Nat) (error : StructuredError) : Bool :=
  if error.status = some 401 then false else decide (failureCount < 2)

/-- Query retryDelay of the query client: exponential backoff capped at 30
seconds. -/
def queriesRetryDelay (attemptIndex : Nat) : Nat :=
  min (1000 * 2 ^ attemptIndex) 30000

/-- Mutation retryDelay of the query client: exponential backoff capped at 10
seconds. -/
def mutationsRetryDelay (attemptIndex : Nat) : Nat :=
  min (1000 * 2 ^ attemptIndex) 10000

/-- Modelled from the spec: the retry loop of the cache layer, which is
library code not under src/.  The failure count starts at zero and counts the
failed attempts so far; after each failed attempt the retry predicate is
consulted with the current count and the error, so a predicate allowing
counts below n grants n retries, that is n plus one total attempts.  The
fuel bounds the recursion and is chosen larger than any configured limit. -/
def retriesGranted (shouldRetry : Nat → StructuredError → Bool) (error : StructuredError) :
    Nat → Nat → Nat
  | _, 0 => 0
  | failureCount, fuel + 1 =>
    if shouldRetry failureCount error then
      retriesGranted shouldRetry error (failureCount + 1) fuel + 1
    else 0

/-- Total attempts made for an operation that fails every time with the given
error: the initial attempt plus every granted retry. -/
def totalAttempts (shouldRetry : Nat → StructuredError → Bool) (error : StructuredError) : Nat :=
  1 + retriesGranted shouldRetry error 0 10

/-- Delays in milliseconds slept before each granted retry of an operation
that fails every time with the given error: before retry i the loop sleeps
for retryDelay of i. -/
def retryDelays (shouldRetry : Nat → StructuredError → Bool) (retryDelay : Nat → Nat)
    (error : StructuredError) : Nat → Nat → List Nat
  | _, 0 => []
  | failureCount, fuel + 1 =>
    if shouldRetry failureCount error then
      retryDelay failureCount ::
        retryDelays shouldRetry retryDelay error (failureCount + 1) fuel
    else []

theorem retriesGranted_count (p : Nat → StructuredError → Bool) (e : StructuredError) (n : Nat)
    (hp : ∀ failureCount, p failureCount e = decide (failureCount < n)) :
    ∀ fuel failureCount, n ≤ failureCount + fuel →
      retriesGranted p e failureCount fuel = n - failureCount := by
  intro fuel
  induction fuel with
  | zero =>
    intro fc h
    simp only [retriesGranted]
    omega
  | succ fuel ih =>
    intro fc h
    by_cases hlt : fc < n
    · have hpt : p fc e = true := by rw [hp]; simpa
      rw [retriesGranted, if_pos hpt, ih (fc + 1) (by omega)]
      omega
    · have hpf : p fc e = false := by rw [hp]; simpa using hlt
      rw [retriesGranted, if_neg (by simp [hpf])]
      omega

/-- User object shape used by the authentication service. -/
structure User where
  id : Nat
  name : String
  email : String
  role : String
  phone : String
  bio : String
  avatar : Option String
  createdAt : String
  updatedAt : String
deriving Repr, DecidableEq

/-- A thrown or rejected JavaScript value observed by a caller: either a
plain Error or a structured error object from the pipeline. -/
inductive ThrownValue where
  | plain (e : JsError)
  | structured (e : StructuredError)
deriving Repr, DecidableEq

/-- True exactly when the thrown value is a structured error object. -/
def ThrownValue.isStructuredError : ThrownValue → Bool
  | .plain _ => false
  | .structured _ => true

/-- isAuthenticated from `src/services/authService.js`: double negation of
getCookie of authToken; JavaScript truthiness makes both a missing cookie and
an empty-string token falsy. -/
def isAuthenticated (jar : CookieJar) : Bool :=
  match getCookie jar "authToken" with
  | some t => t != ""
  | none => false

/-- The dummy user object returned by the demo-mode login in
`src/services/authService.js`.  The parameter now abstracts the clock, and
the ISO rendering of the current time is abstracted to its decimal string. -/
def dummyLoginUser (now : Nat) : User :=
  { id := 1
    name := "Test User"
    email := "user@test.com"
    role := "user"
    phone := "+1 (555) 123-4567"
    bio := "This is a demo user account for testing the React SPA template."
    avatar := none
    createdAt := "2024-01-01T00:00:00.000Z"
    updatedAt := toString now }

/-- login from `src/services/authService.js` (shipped demo mode): rejects
with a plain Error when a field is missing or the pair is not the single demo
credential; otherwise generates the dummy token from the clock, stores it in
the cookie jar (guarded by the truthiness of the token) and returns token and
user.  No network request is made in demo mode. -/
def login (now : Nat) (isProduction : Bool) (email password : String) (jar : CookieJar) :
    CookieJar × Except ThrownValue (String × User) :=
  if email = "" ∨ password = "" then
    (jar, .error (.plain { message := "Email and password are required" }))
  else if email ≠ "user@test.com" ∨ password ≠ "123456" then
    (jar, .error (.plain { message := "Invalid email or password" }))
  else
    let token := "dummy_jwt_token_" ++ toString now
    let jar1 :=
      if token ≠ "" then applyWrite jar (setCookie isProduction "authToken" token {}) else jar
    (jar1, .ok (token, dummyLoginUser now))

/-- Outcome of logout in `src/services/authService.js`: the updated jar,
the rejection value of the returned promise (none when it resolves) and
whether a server-side failure was logged with a console warning. -/
structure LogoutOutcome where
  jar : CookieJar
  rejected : Option ThrownValue
  warnedLog : Bool
deriving Repr, DecidableEq

/-- logout from `src/services/authService.js`: the try block performs the
best-effort server call (abstracted by serverFails; in shipped demo mode the
body cannot fail), the catch block swallows and logs any failure, and the
finally block always deletes the auth cookie; the promise therefore always
resolves. -/
def logout (isProduction serverFails : Bool) (jar : CookieJar) : LogoutOutcome :=
  { jar := applyWrite jar (deleteCookie isProduction "authToken")
    rejected := none
    warnedLog := serverFails }

/-- Query key for the current user, from the query-key factory: the auth
namespace segment followed by the user segment. -/
def queryKeysAuthUser : List String := ["auth"] ++ ["user"]

/-- One cached query result: the data and the time it was written. -/
structure CacheEntry where
  data : User
  updatedAt : Nat
deriving Repr, DecidableEq

/-- The query cache: one entry per query key. -/
abbrev Cache := List (List String × CacheEntry)

/-- setQueryData of the query client: replace or insert the entry at the key,
stamped with the current time. -/
def setQueryData (cache : Cache) (key : List String) (entry : CacheEntry) : Cache :=
  (key, entry) :: cache.filter (fun kv => kv.1 != key)

/-- Cache lookup by query key. -/
def cacheLookup (cache : Cache) (key : List String) : Option CacheEntry :=
  (cache.find? (fun kv => kv.1 == key)).map (fun kv => kv.2)

/-- Effects visible from the React Query hooks: the query cache, the
navigate calls issued in order, and the toasts shown. -/
structure HookState where
  cache : Cache
  nav : List String
  toasts : List String
deriving Repr, DecidableEq

/-- Retry option of the login mutation in `src/hooks/useAuth.js`: retries are
disabled for login. -/
def useLoginRetryOption : Bool := false

/-- onSuccess of the login mutation: seed the current-user cache entry with
the user returned by the login response, toast a welcome, and navigate to
the dashboard (the protected entry point). -/
def useLoginOnSuccess (now : Nat) (st : HookState) (user : User) : HookState :=
  { st with
    cache := setQueryData st.cache queryKeysAuthUser { data := user, updatedAt := now }
    toasts := st.toasts ++ ["Welcome back!"]
    nav := st.nav ++ ["/"] }

/-- onError of the login mutation: it only logs, so the hook state is
unchanged. -/
def useLoginOnError (st : HookState) (_error : ThrownValue) : HookState :=
  st

/-- onSuccess of the logout mutation: clear the whole query cache, toast, and
navigate to the login page (the public entry point). -/
def useLogoutOnSuccess (st : HookState) : HookState :=
  { st with
    cache := []
    toasts := st.toasts ++ ["Logged out successfully"]
    nav := st.nav ++ ["/login"] }

/-- onError of the logout mutation: still clear the cache and navigate to the
login page. -/
def useLogoutOnError (st : HookState) : HookState :=
  { st with cache := [], nav := st.nav ++ ["/login"] }

/-- The full logout flow of the useLogout hook: run the service logout, then
the mutation callback selected by its outcome. -/
def useLogoutFlow (isProduction serverFails : Bool) (jar : CookieJar) (st : HookState) :
    CookieJar × HookState :=
  let out := logout isProduction serverFails jar
  match out.rejected with
  | none => (out.jar, useLogoutOnSuccess st)
  | some _ => (out.jar, useLogoutOnError st)

/-- staleTime of the useUser query: five minutes in milliseconds. -/
def useUserStaleTime : Nat := 5 * 60 * 1000

/-- Modelled from the spec: the cache-layer freshness rule (an entry younger
than its stale time is served without re-fetching, while a mount with no
entry or a stale entry triggers a fetch); the query-cache machinery itself is
library code not under src/.  The enabled gate (the token-presence check) and
the stale time come from the useUser call site. -/
def useUserFetchesOnMount (jar : CookieJar) (cache : Cache) (now : Nat) : Bool :=
  isAuthenticated jar &&
    match cacheLookup cache queryKeysAuthUser with
    | none => true
    | some entry => decide (entry.updatedAt + useUserStaleTime < now)

/-- isAuthenticated returned by useAuthStatus in `src/hooks/useAuth.js`: the
token-presence check of the service conjoined with the double negation of the
user data of the useUser query. -/
def useAuthStatusIsAuthenticated (jar : CookieJar) (user : Option User) : Bool :=
  isAuthenticated jar && user.isSome

/-- What a route wrapper component renders. -/
inductive RouteRender where
  | spinner
  | redirect (target : String)
  | children
deriving Repr, DecidableEq

/-- ProtectedRoute component: spinner while loading, redirect to the login
page when not authenticated, otherwise the children. -/
def protectedRoute (isLoading : Bool) (jar : CookieJar) (user : Option User) : RouteRender :=
  if isLoading then .spinner
  else if !(useAuthStatusIsAuthenticated jar user) then .redirect "/login"
  else .children

/-- PublicRoute component: spinner while loading, redirect to the dashboard
when already authenticated, otherwise the children. -/
def publicRoute (isLoading : Bool) (jar : CookieJar) (user : Option User) : RouteRender :=
  if isLoading then .spinner
  else if useAuthStatusIsAuthenticated jar user then .redirect "/"
  else .children

/-- useRequireAuth from `src/hooks/useAuth.js`: navigates to the login page
exactly when not loading and not authenticated. -/
def useRequireAuthNavigates (isLoading : Bool) (jar : CookieJar) (user : Option User) : Bool :=
  !isLoading && !(useAuthStatusIsAuthenticated jar user)

/-- Sample 401 transport error on a protected endpoint. -/
def e401sample : RawError :=
  { message := "Request failed with status code 401"
    response := some { status := 401, statusText := "Unauthorized", data := none }
    config := some { url := "/auth/me", method := "get" } }

/-- Sample structured error with client-error status 400. -/
def err400sample : StructuredError :=
  { message := "Request failed with status code 400"
    status := some 400
    statusText := some "Bad Request"
    data := none
    url := some "/auth/me"
    method := some "get" }

/-- Sample structured error with server-error status 500. -/
def err500sample : StructuredError :=
  { message := "Request failed with status code 500"
    status := some 500
    statusText := some "Internal Server Error"
    data := none
    url := some "/auth/me"
    method := some "get" }

/-- Sample browser state away from the login page, with a token present and
no signal emitted yet. -/
def stHome : BrowserState :=
  { jar := [("authToken", "tok")], pathname := "/", hrefAssigns := [], toasts := [] }

/-- Sample browser state already on the login page, with a token present and
no signal emitted yet. -/
def stOnLogin : BrowserState :=
  { jar := [("authToken", "tok")], pathname := "/login", hrefAssigns := [], toasts := [] }

theorem setCookie_default_eq (isProduction : Bool) (name value : String) :
    setCookie isProduction name value {} =
      { name := name, value := value, maxAge := some ((7 : Int) * 24 * 60 * 60),
        path := some "/", secure := isProduction, sameSite := some "strict" } := by
  have h1 : ((7 : Int) * 24 * 60 * 60) ≠ 0 := by norm_num
  have h2 : ("/" : String) ≠ "" := by decide
  have h3 : ("strict" : String) ≠ "" := by decide
  simp [setCookie, mergeConfig, COOKIE_CONFIG, h1, h2, h3]

theorem deleteCookie_eq (isProduction : Bool) (name : String) :
    deleteCookie isProduction name =
      { name := name, value := "", maxAge := some (-1),
        path := some "/", secure := isProduction, sameSite := some "strict" } := by
  have h1 : ((-1 : Int)) ≠ 0 := by norm_num
  have h2 : ("/" : String) ≠ "" := by decide
  have h3 : ("strict" : String) ≠ "" := by decide
  simp [deleteCookie, setCookie, mergeConfig, COOKIE_CONFIG, h1, h2, h3]

/-- Claim C9: every credential-store write carries the fixed flags (seven-day
Max-Age, site-wide path, Secure only in production, SameSite strict); the
delete emits the identical path and flag scope as the write, differing only
in its expired Max-Age, so browsers do not silently ignore the deletion; and
deleting is idempotent, with no error when the cookie is absent (the cookie
is simply still gone afterwards). -/
theorem C9_cookie_write_and_delete_flags (isProduction : Bool) (value : String) (jar : CookieJar) :
    (setCookie isProduction "authToken" value {}).maxAge = some 604800
    ∧ (setCookie isProduction "authToken" value {}).path = some "/"
    ∧ (setCookie isProduction "authToken" value {}).secure = isProduction
    ∧ (setCookie isProduction "authToken" value {}).sameSite = some "strict"
    ∧ (deleteCookie isProduction "authToken").path =
        (setCookie isProduction "authToken" value {}).path
    ∧ (deleteCookie isProduction "authToken").secure =
        (setCookie isProduction "authToken" value {}).secure
    ∧ (deleteCookie isProduction "authToken").sameSite =
        (setCookie isProduction "authToken" value {}).sameSite
    ∧ getCookie (applyWrite jar (deleteCookie isProduction "authToken")) "authToken" = none
    ∧ applyWrite (applyWrite jar (deleteCookie isProduction "authToken"))
        (deleteCookie isProduction "authToken") =
        applyWrite jar (deleteCookie isProduction "authToken") := by
  refine ⟨?_, ?_, ?_, ?_, ?_, ?_, ?_, ?_, ?_⟩
  · rw [setCookie_default_eq]; norm_num
  · rw [setCookie_default_eq]
  · rw [setCookie_default_eq]
  · rw [setCookie_default_eq]
  · rw [setCookie_default_eq, deleteCookie_eq]
  · rw [setCookie_default_eq, deleteCookie_eq]
  · rw [setCookie_default_eq, deleteCookie_eq]
  · exact getCookie_applyWrite_delete isProduction jar "authToken"
  · rw [applyWrite_delete_eq, applyWrite_delete_eq]
    simp [List.filter_filter]

/-- Claim C4: every failure leaving the request pipeline - entering at
either interceptor stage, and also when no response and hence no status is
present - is a structured error carrying the message, the optional status,
the server payload and the request URL and method; no raw transport error
propagates out of the client on any failure path, because a request-stage
rejection is passed to the downstream response interceptor rejection
handler, which structures it before it leaves the layer. -/
theorem C4_every_pipeline_failure_is_structured
    (isProduction : Bool) (st : BrowserState) (stage : FailureStage) (error : RawError) :
    (httpClientReject isProduction st stage error).2 =
      .structured
        { message := error.message
          status := error.response.map (fun r => r.status)
          statusText := error.response.map (fun r => r.statusText)
          data := error.response.bind (fun r => r.data)
          url := error.config.map (fun c => c.url)
          method := error.config.map (fun c => c.method) }
    ∧ (httpClientReject isProduction st stage error).2.isStructured = true := by
  cases stage <;> exact ⟨rfl, rfl⟩

/-- Claim C5: the backoff delay before retry attempt i plus one equals the
minimum of 1000 times 2 to the i and the cap, with cap 30000 ms for queries
and 10000 ms for mutations; concretely, the delay schedules of an operation
that keeps failing with status 500 are 1000, 2000, 4000 ms for queries and
1000, 2000 ms for mutations. -/
theorem C5_backoff_delays :
    (∀ attemptIndex, queriesRetryDelay attemptIndex = min (1000 * 2 ^ attemptIndex) 30000)
    ∧ (∀ attemptIndex, mutationsRetryDelay attemptIndex = min (1000 * 2 ^ attemptIndex) 10000)
    ∧ retryDelays queriesRetry queriesRetryDelay err500sample 0 10 = [1000, 2000, 4000]
    ∧ retryDelays mutationsRetry mutationsRetryDelay err500sample 0 10 = [1000, 2000] :=
  ⟨fun _ => rfl, fun _ => rfl, by decide, by decide⟩

/-- Claim C1: the derived authentication flag is true only when the
credential store holds a token AND the current-user query has produced user
data.  In every state where the token cookie is present but no user data is
available, the flag exposed to UI collaborators is false (the protected
route redirects to the login page, the public route renders its children and
useRequireAuth navigates away); and every call site consumes that same
conjunction - token present AND user present - never token presence alone. -/
theorem C1_isAuthenticated_requires_token_and_user
    (jar : CookieJar) (user : Option User)
    (htok : isAuthenticated jar = true) (huser : user = none) :
    useAuthStatusIsAuthenticated jar user = false
    ∧ protectedRoute false jar user = .redirect "/login"
    ∧ publicRoute false jar user = .children
    ∧ useRequireAuthNavigates false jar user = true
    ∧ (∀ (jar2 : CookieJar) (user2 : Option User),
        useAuthStatusIsAuthenticated jar2 user2 = (isAuthenticated jar2 && user2.isSome)
        ∧ protectedRoute false jar2 user2 =
            (if useAuthStatusIsAuthenticated jar2 user2 then .children else .redirect "/login")
        ∧ publicRoute false jar2 user2 =
            (if useAuthStatusIsAuthenticated jar2 user2 then .redirect "/" else .children)
        ∧ useRequireAuthNavigates false jar2 user2 = !(useAuthStatusIsAuthenticated jar2 user2)) := by
  subst huser
  refine ⟨?_, ?_, ?_, ?_, ?_⟩
  · simp [useAuthStatusIsAuthenticated, htok]
  · simp [protectedRoute, useAuthStatusIsAuthenticated, htok]
  · simp [publicRoute, useAuthStatusIsAuthenticated, htok]
  · simp [useRequireAuthNavigates, useAuthStatusIsAuthenticated, htok]
  · intro jar2 user2
    refine ⟨rfl, ?_, ?_, ?_⟩
    · cases h : useAuthStatusIsAuthenticated jar2 user2 <;> simp [protectedRoute, h]
    · cases h : useAuthStatusIsAuthenticated jar2 user2 <;> simp [publicRoute, h]
    · simp [useRequireAuthNavigates]

/-- Claim C1 witness: a concrete state with the token cookie present and no
fetched user, on which the exposed flag is false. -/
theorem C1_witness :
    isAuthenticated [("authToken", "tok")] = true
    ∧ useAuthStatusIsAuthenticated [("authToken", "tok")] none = false :=
  ⟨by decide,
   (C1_isAuthenticated_requires_token_and_user [("authToken", "tok")] none (by decide) rfl).1⟩

theorem dummy_token_ne_empty (now : Nat) : ("dummy_jwt_token_" ++ toString now) ≠ "" := by
  intro h
  have hlen := congrArg String.length h
  rw [String.length_append] at hlen
  have h16 : ("dummy_jwt_token_" : String).length = 16 := rfl
  have h0 : ("" : String).length = 0 := rfl
  rw [h16, h0] at hlen
  omega

theorem login_success_eq (now : Nat) (isProduction : Bool) (jar : CookieJar) :
    login now isProduction "user@test.com" "123456" jar =
      (applyWrite jar
        (setCookie isProduction "authToken" ("dummy_jwt_token_" ++ toString now) {}),
       .ok ("dummy_jwt_token_" ++ toString now, dummyLoginUser now)) := by
  simp only [login]
  rw [if_neg (by decide), if_neg (by decide), if_pos (dummy_token_ne_empty now)]

theorem login_failure_eq (now : Nat) (isProduction : Bool) (email password : String)
    (jar : CookieJar) (hfail : ¬(email = "user@test.com" ∧ password = "123456")) :
    login now isProduction email password jar =
      (jar, .error (.plain { message :=
        if email = "" ∨ password = "" then "Email and password are required"
        else "Invalid email or password" })) := by
  by_cases h1 : email = "" ∨ password = ""
  · simp only [login]
    rw [if_pos h1, if_pos h1]
  · have h2 : email ≠ "user@test.com" ∨ password ≠ "123456" := by
      by_contra hc
      push_neg at hc
      exact hfail ⟨hc.1, hc.2⟩
    simp only [login]
    rw [if_neg h1, if_pos h2, if_neg h1]

/-- Claim C6 counterexample: a failed demo login rejects with a plain Error
carrying only a message - no status, no request URL or method - so the
claim that a StructuredError is surfaced to the caller is false as stated
(the remaining conjuncts of the claim do hold, see the amended theorem). -/
theorem C6_counterexample :
    (login 0 false "nobody@test.com" "wrongpass" []).2 =
      .error (.plain { message := "Invalid email or password" })
    ∧ (ThrownValue.plain { message := "Invalid email or password" }).isStructuredError
        = false := by
  refine ⟨?_, rfl⟩
  have hcond : ¬(("nobody@test.com" : String) = "" ∨ ("wrongpass" : String) = "") := by decide
  rw [login_failure_eq 0 false "nobody@test.com" "wrongpass" [] (by decide), if_neg hcond]

/-- Claim C6 (amended): every failed login invocation rejects with a plain
Error - not a structured pipeline error - whose message is the
required-fields message when either field is empty and the invalid-credential
message otherwise; the cookie jar is returned untouched, so an empty
credential store stays empty; no cached state is mutated and no navigation
occurs (the onError callback returns the hook state unchanged); and the
login mutation is never automatically retried (its retry option is false). -/
theorem C6_failed_login_surfaces_plain_error
    (now : Nat) (isProduction : Bool) (email password : String) (jar : CookieJar)
    (hfail : ¬(email = "user@test.com" ∧ password = "123456")) :
    login now isProduction email password jar =
      (jar, .error (.plain { message :=
        if email = "" ∨ password = "" then "Email and password are required"
        else "Invalid email or password" }))
    ∧ (∀ t, (login now isProduction email password jar).2 = .error t →
        t.isStructuredError = false)
    ∧ useLoginRetryOption = false
    ∧ (∀ (st : HookState) (err : ThrownValue), useLoginOnError st err = st) := by
  have h := login_failure_eq now isProduction email password jar hfail
  refine ⟨h, ?_, rfl, fun st err => rfl⟩
  intro t ht
  rw [h] at ht
  simp only [Except.error.injEq] at ht
  rw [← ht]
  rfl

/-- Claim C6 witness: a concrete failed login with wrong credentials. -/
theorem C6_witness :
    ¬("nobody@test.com" = "user@test.com" ∧ "wrongpass" = "123456")
    ∧ login 3 false "nobody@test.com" "wrongpass" [] =
        ([], .error (.plain { message := "Invalid email or password" })) := by
  refine ⟨by decide, ?_⟩
  have hcond : ¬(("nobody@test.com" : String) = "" ∨ ("wrongpass" : String) = "") := by decide
  have h :=
    (C6_failed_login_surfaces_plain_error 3 false "nobody@test.com" "wrongpass" []
      (by decide)).1
  rw [if_neg hcond] at h
  exact h

/-- Claim C7: a successful login stores the returned credential in the
credential store, seeds the current-user cache entry directly with the user
from the login response - after which a useUser mount issues no additional
fetch, the entry being fresh - and emits exactly one navigation signal, to
the protected entry point. -/
theorem C7_successful_login_seeds_cache_and_navigates_once
    (now : Nat) (isProduction : Bool) (jar : CookieJar) (st : HookState) :
    (login now isProduction "user@test.com" "123456" jar).2 =
      .ok ("dummy_jwt_token_" ++ toString now, dummyLoginUser now)
    ∧ getCookie (login now isProduction "user@test.com" "123456" jar).1 "authToken" =
        some ("dummy_jwt_token_" ++ toString now)
    ∧ cacheLookup (useLoginOnSuccess now st (dummyLoginUser now)).cache queryKeysAuthUser =
        some { data := dummyLoginUser now, updatedAt := now }
    ∧ useUserFetchesOnMount (login now isProduction "user@test.com" "123456" jar).1
        (useLoginOnSuccess now st (dummyLoginUser now)).cache now = false
    ∧ (useLoginOnSuccess now st (dummyLoginUser now)).nav = st.nav ++ ["/"] := by
  rw [login_success_eq]
  refine ⟨rfl, getCookie_applyWrite_set _ _ _ _, ?_, ?_, rfl⟩
  · simp [useLoginOnSuccess, setQueryData, cacheLookup]
  · have hauth :
        isAuthenticated
          (applyWrite jar
            (setCookie isProduction "authToken" ("dummy_jwt_token_" ++ toString now) {}))
          = true := by
      rw [isAuthenticated, getCookie_applyWrite_set]
      simpa using dummy_token_ne_empty now
    rw [useUserFetchesOnMount, hauth]
    simp [useLoginOnSuccess, setQueryData, cacheLookup, useUserStaleTime]

/-- Claim C8: whether or not the best-effort server-side logout call fails,
the client-side credential is always cleared in the finally block, the
failure is only logged and never escalated (the promise resolves), the whole
query cache is purged and navigation to the public entry point is signaled. -/
theorem C8_logout_always_clears_and_navigates
    (isProduction serverFails : Bool) (jar : CookieJar) (st : HookState) :
    (logout isProduction serverFails jar).rejected = none
    ∧ (logout isProduction serverFails jar).warnedLog = serverFails
    ∧ getCookie (logout isProduction serverFails jar).jar "authToken" = none
    ∧ getCookie (useLogoutFlow isProduction serverFails jar st).1 "authToken" = none
    ∧ (useLogoutFlow isProduction serverFails jar st).2.cache = []
    ∧ (useLogoutFlow isProduction serverFails jar st).2.nav = st.nav ++ ["/login"] := by
  refine ⟨rfl, rfl, ?_, ?_, rfl, rfl⟩
  · exact getCookie_applyWrite_delete isProduction jar "authToken"
  · exact getCookie_applyWrite_delete isProduction jar "authToken"

/-- Claim C10: in shipped demo mode, login succeeds for exactly the single
input pair demo email and password 123456; every other input rejects before
any cookie is written, with the required-fields message when either field is
empty and the invalid-credential message otherwise; and the accepted pair
stores a freshly generated dummy token derived from the local clock, not a
server-issued credential. -/
theorem C10_demo_login_accepts_exactly_one_pair
    (now : Nat) (isProduction : Bool) (email password : String) (jar : CookieJar) :
    ((∃ r, (login now isProduction email password jar).2 = .ok r) ↔
        (email = "user@test.com" ∧ password = "123456"))
    ∧ ((email = "user@test.com" ∧ password = "123456") →
        login now isProduction email password jar =
          (applyWrite jar
            (setCookie isProduction "authToken" ("dummy_jwt_token_" ++ toString now) {}),
           .ok ("dummy_jwt_token_" ++ toString now, dummyLoginUser now)))
    ∧ (¬(email = "user@test.com" ∧ password = "123456") →
        login now isProduction email password jar =
          (jar, .error (.plain { message :=
            if email = "" ∨ password = "" then "Email and password are required"
            else "Invalid email or password" }))) := by
  by_cases h : email = "user@test.com" ∧ password = "123456"
  · obtain ⟨he, hp⟩ := h
    subst he hp
    refine ⟨?_, fun _ => login_success_eq now isProduction jar, fun hc => absurd ⟨rfl, rfl⟩ hc⟩
    rw [login_success_eq]
    exact ⟨fun _ => ⟨rfl, rfl⟩, fun _ => ⟨_, rfl⟩⟩
  · refine ⟨?_, fun hc => absurd hc h, fun _ => login_failure_eq now isProduction email password jar h⟩
    rw [login_failure_eq now isProduction email password jar h]
    constructor
    · rintro ⟨r, hr⟩
      simp at hr
    · intro hc
      exact absurd hc h

/-- Claim C10 witness: the accepted demo pair at a concrete clock value. -/
theorem C10_witness :
    ("user@test.com" = "user@test.com" ∧ "123456" = "123456")
    ∧ login 7 false "user@test.com" "123456" [] =
        (applyWrite []
          (setCookie false "authToken" ("dummy_jwt_token_" ++ toString 7) {}),
         .ok ("dummy_jwt_token_" ++ toString 7, dummyLoginUser 7)) :=
  ⟨⟨rfl, rfl⟩,
   (C10_demo_login_accepts_exactly_one_pair 7 false "user@test.com" "123456" []).2.1 ⟨rfl, rfl⟩⟩

theorem responseInterceptorError_401_jar (isProduction : Bool) (st : BrowserState)
    (e : RawError) (r : ResponseInfo) (hr : e.response = some r) (h401 : r.status = 401) :
    (responseInterceptorError isProduction st e).1.jar =
      applyWrite st.jar (deleteCookie isProduction "authToken") := by
  by_cases hp : st.pathname = "/login"
  · simp [responseInterceptorError, hr, h401, hp]
  · simp [responseInterceptorError, hr, h401, hp]

theorem responseInterceptorError_401_state (isProduction : Bool) (st : BrowserState)
    (e : RawError) (r : ResponseInfo) (hr : e.response = some r) (h401 : r.status = 401) :
    (responseInterceptorError isProduction st e).1.pathname = "/login"
    ∧ (responseInterceptorError isProduction st e).1.hrefAssigns =
        (if st.pathname = "/login" then st.hrefAssigns else st.hrefAssigns ++ ["/login"]) := by
  by_cases hp : st.pathname = "/login"
  · simp [responseInterceptorError, hr, h401, hp]
  · simp [responseInterceptorError, hr, h401, hp]

theorem processErrors_all401_pathname (isProduction : Bool) :
    ∀ (errors : List RawError) (st : BrowserState),
      (∀ e ∈ errors, ∃ r, e.response = some r ∧ r.status = 401) →
      st.pathname = "/login" →
      (processErrors isProduction st errors).pathname = "/login"
      ∧ (processErrors isProduction st errors).hrefAssigns = st.hrefAssigns := by
  intro errors
  induction errors with
  | nil => intro st _ hp; exact ⟨hp, rfl⟩
  | cons e rest ih =>
    intro st hall hp
    obtain ⟨r, hr, h401⟩ := hall e (List.mem_cons_self e rest)
    have hstep := responseInterceptorError_401_state isProduction st e r hr h401
    have hhe : (responseInterceptorError isProduction st e).1.hrefAssigns = st.hrefAssigns := by
      rw [hstep.2, if_pos hp]
    have hfold : processErrors isProduction st (e :: rest) =
        processErrors isProduction ((responseInterceptorError isProduction st e).1) rest := rfl
    rw [hfold]
    have hrec := ih ((responseInterceptorError isProduction st e).1)
      (fun x hx => hall x (List.mem_cons_of_mem e hx)) hstep.1
    exact ⟨hrec.1, by rw [hrec.2, hhe]⟩

theorem processErrors_all401_cookie (isProduction : Bool) :
    ∀ (errors : List RawError) (st : BrowserState),
      (∀ e ∈ errors, ∃ r, e.response = some r ∧ r.status = 401) →
      errors ≠ [] →
      getCookie (processErrors isProduction st errors).jar "authToken" = none := by
  intro errors
  induction errors with
  | nil => intro st _ hne; exact absurd rfl hne
  | cons e rest ih =>
    intro st hall _
    obtain ⟨r, hr, h401⟩ := hall e (List.mem_cons_self e rest)
    cases rest with
    | nil =>
      have hfold : processErrors isProduction st [e] =
          (responseInterceptorError isProduction st e).1 := rfl
      rw [hfold, responseInterceptorError_401_jar isProduction st e r hr h401]
      exact getCookie_applyWrite_delete isProduction st.jar "authToken"
    | cons e2 rest2 =>
      have hfold : processErrors isProduction st (e :: e2 :: rest2) =
          processErrors isProduction
            ((responseInterceptorError isProduction st e).1) (e2 :: rest2) := rfl
      rw [hfold]
      exact ih _ (fun x hx => hall x (List.mem_cons_of_mem e hx)) (by simp)

/-- Claim C2 counterexample: a 401 processed while the browser is already on
the public entry point clears the cookie but emits zero forced-navigation
signals, refuting the claim that exactly one signal is always emitted for a
401. -/
theorem C2_counterexample :
    getCookie (processErrors false stOnLogin [e401sample]).jar "authToken" = none
    ∧ (processErrors false stOnLogin [e401sample]).hrefAssigns.length = 0
    ∧ (processErrors false stOnLogin [e401sample]).hrefAssigns.length ≠ 1 := by
  refine ⟨?_, ?_, ?_⟩ <;> decide

/-- Claim C2 (amended): for every nonempty batch of concurrent 401 responses,
on any endpoints, the credential store ends empty and no automatic retry
occurs (every retry predicate refuses a 401); exactly one forced-navigation
signal to the public entry point is emitted when the browser was not already
there, and none when it was (each signal is assumed to take effect before the
next response is processed). -/
theorem C2_401_clears_store_and_navigates_once (isProduction : Bool) (st : BrowserState)
    (errors : List RawError)
    (hne : errors ≠ [])
    (hall : ∀ e ∈ errors, ∃ r, e.response = some r ∧ r.status = 401)
    (hsig : st.hrefAssigns = []) :
    getCookie (processErrors isProduction st errors).jar "authToken" = none
    ∧ (processErrors isProduction st errors).hrefAssigns.length =
        (if st.pathname = "/login" then 0 else 1)
    ∧ (∀ (failureCount : Nat) (err : StructuredError), err.status = some 401 →
        queriesRetry failureCount err = false
        ∧ mutationsRetry failureCount err = false
        ∧ useUserRetry failureCount err = false) := by
  refine ⟨processErrors_all401_cookie isProduction errors st hall hne, ?_, ?_⟩
  · cases errors with
    | nil => exact absurd rfl hne
    | cons e rest =>
      obtain ⟨r, hr, h401⟩ := hall e (List.mem_cons_self e rest)
      have hstep := responseInterceptorError_401_state isProduction st e r hr h401
      have hfold : processErrors isProduction st (e :: rest) =
          processErrors isProduction ((responseInterceptorError isProduction st e).1) rest := rfl
      have hrest := processErrors_all401_pathname isProduction rest
        ((responseInterceptorError isProduction st e).1)
        (fun x hx => hall x (List.mem_cons_of_mem e hx)) hstep.1
      rw [hfold, hrest.2, hstep.2, hsig]
      by_cases hp : st.pathname = "/login"
      · rw [if_pos hp, if_pos hp]
        rfl
      · rw [if_neg hp, if_neg hp]
        rfl
  · intro fc err hst
    refine ⟨?_, ?_, ?_⟩
    · simp [queriesRetry, hst]
    · simp [mutationsRetry, hst]
    · simp [useUserRetry, hst]

/-- Claim C2 witness: one concrete 401 arriving away from the public entry
point clears the cookie and emits exactly one navigation signal. -/
theorem C2_witness :
    ([e401sample] ≠ ([] : List RawError))
    ∧ stHome.hrefAssigns = []
    ∧ getCookie (processErrors false stHome [e401sample]).jar "authToken" = none
    ∧ (processErrors false stHome [e401sample]).hrefAssigns.length =
        (if stHome.pathname = "/login" then 0 else 1) := by
  have h := C2_401_clears_store_and_navigates_once false stHome [e401sample]
    (List.cons_ne_nil _ _)
    (fun e he => by
      rw [List.mem_singleton] at he
      subst he
      exact ⟨_, rfl, rfl⟩)
    rfl
  exact ⟨List.cons_ne_nil _ _, rfl, h.1, h.2.1⟩

/-- Claim C3 counterexample: the useUser query retries a 400 failure (its
retry predicate refuses only 401), and a query failing persistently with 500
makes four total attempts (the default predicate grants three retries), so
both the claim of zero retries for every 4xx at every call site and the
claim of three total attempts for queries are false as stated. -/
theorem C3_counterexample :
    useUserRetry 0 err400sample = true
    ∧ totalAttempts queriesRetry err500sample = 4 := by
  refine ⟨?_, ?_⟩ <;> decide

/-- Claim C3 (amended): under the default query and mutation options no 4xx
failure is ever retried (one total attempt), and a 5xx or status-less
failure is retried three times for queries (four total attempts) and twice
for mutations (three total attempts) before the error is surfaced; the
useUser call site deviates from the default: it refuses retry only on 401
and otherwise grants two retries (three total attempts), even for other 4xx
failures. -/
theorem C3_retry_counts :
    (∀ (failureCount s : Nat) (err : StructuredError),
        err.status = some s → 400 ≤ s → s < 500 →
        queriesRetry failureCount err = false ∧ mutationsRetry failureCount err = false
        ∧ totalAttempts queriesRetry err = 1 ∧ totalAttempts mutationsRetry err = 1)
    ∧ (∀ (s : Nat) (err : StructuredError), err.status = some s → 500 ≤ s →
        totalAttempts queriesRetry err = 4 ∧ totalAttempts mutationsRetry err = 3)
    ∧ (∀ err : StructuredError, err.status = none →
        totalAttempts queriesRetry err = 4 ∧ totalAttempts mutationsRetry err = 3)
    ∧ (∀ (failureCount : Nat) (err : StructuredError), err.status = some 401 →
        useUserRetry failureCount err = false ∧ totalAttempts useUserRetry err = 1)
    ∧ (∀ (s : Nat) (err : StructuredError), err.status = some s → s ≠ 401 →
        totalAttempts useUserRetry err = 3) := by
  refine ⟨?_, ?_, ?_, ?_, ?_⟩
  · intro fc s err hst h4a h4b
    have hq : ∀ failureCount, queriesRetry failureCount err = decide (failureCount < 0) := by
      intro fc2
      simp only [queriesRetry, hst]
      rw [if_pos ⟨h4a, h4b⟩]
      simp
    have hm : ∀ failureCount, mutationsRetry failureCount err = decide (failureCount < 0) := by
      intro fc2
      simp only [mutationsRetry, hst]
      rw [if_pos ⟨h4a, h4b⟩]
      simp
    refine ⟨by rw [hq]; simp, by rw [hm]; simp, ?_, ?_⟩
    · rw [totalAttempts, retriesGranted_count queriesRetry err 0 hq 10 0 (by omega)]
    · rw [totalAttempts, retriesGranted_count mutationsRetry err 0 hm 10 0 (by omega)]
  · intro s err hst h5
    have hq : ∀ failureCount, queriesRetry failureCount err = decide (failureCount < 3) := by
      intro fc
      simp only [queriesRetry, hst]
      rw [if_neg (by omega)]
    have hm : ∀ failureCount, mutationsRetry failureCount err = decide (failureCount < 2) := by
      intro fc
      simp only [mutationsRetry, hst]
      rw [if_neg (by omega)]
    constructor
    · rw [totalAttempts, retriesGranted_count queriesRetry err 3 hq 10 0 (by omega)]
    · rw [totalAttempts, retriesGranted_count mutationsRetry err 2 hm 10 0 (by omega)]
  · intro err hst
    have hq : ∀ failureCount, queriesRetry failureCount err = decide (failureCount < 3) := by
      intro fc
      simp only [queriesRetry, hst]
    have hm : ∀ failureCount, mutationsRetry failureCount err = decide (failureCount < 2) := by
      intro fc
      simp only [mutationsRetry, hst]
    constructor
    · rw [totalAttempts, retriesGranted_count queriesRetry err 3 hq 10 0 (by omega)]
    · rw [totalAttempts, retriesGranted_count mutationsRetry err 2 hm 10 0 (by omega)]
  · intro fc err hst
    have hu : ∀ failureCount, useUserRetry failureCount err = decide (failureCount < 0) := by
      intro fc2
      simp only [useUserRetry, hst]
      simp
    refine ⟨by rw [hu]; simp, ?_⟩
    rw [totalAttempts, retriesGranted_count useUserRetry err 0 hu 10 0 (by omega)]
  · intro s err hst hne
    have hu : ∀ failureCount, useUserRetry failureCount err = decide (failureCount < 2) := by
      intro fc
      simp only [useUserRetry, hst]
      rw [if_neg (by simp [hne])]
    rw [totalAttempts, retriesGranted_count useUserRetry err 2 hu 10 0 (by omega)]

/-- Claim C3 witness: concrete retry counts at statuses 400 and 500. -/
theorem C3_witness :
    err400sample.status = some 400 ∧ err500sample.status = some 500
    ∧ queriesRetry 0 err400sample = false
    ∧ totalAttempts queriesRetry err500sample = 4
    ∧ totalAttempts mutationsRetry err500sample = 3
    ∧ totalAttempts useUserRetry err400sample = 3 := by
  refine ⟨rfl, rfl, ?_, ?_, ?_, ?_⟩
  · exact (C3_retry_counts.1 0 400 err400sample rfl (by norm_num) (by norm_num)).1
  · exact (C3_retry_counts.2.1 500 err500sample rfl (by norm_num)).1
  · exact (C3_retry_counts.2.1 500 err500sample rfl (by norm_num)).2
  · exact C3_retry_counts.2.2.2.2 400 err400sample rfl (by norm_num)

end Spa
